import Mathlib

/-!
Verification development for the KIH_API orchestration layer.

This file gives a shallow embedding of the two orchestration modules of the
repository — `wise/models.py` (money-transfer orchestration) and
`ibkr/models.py` (brokerage order placement and instrument lookup) — together
with the helper `global_common.get_enum_from_value`, and proves properties of
that embedding.

Modelling conventions:
- Python `Decimal` values are embedded as `Rat` (exact arithmetic; the code
  only compares, subtracts and copies them).
- Python exceptions are embedded as the error side of `Except PyError α`.
- External HTTP collaborators (`wise_models.*.call`, `ibkr_models.*.call`)
  are embedded as a record of total functions (an environment); the
  orchestration functions additionally return a trace of the side-effecting
  events they perform (quote/transfer/fund calls, notification sends, log
  writes) in program order.
- Python string-to-`Decimal` parsing of numeric payload fields is abstracted
  to the identity on present values (`Option Rat`); the runtime failures that
  Python raises when such a field is `None` are kept
  (`AttributeError` for `None.replace`, `decimal.InvalidOperation`
  for `Decimal (str None)`).
-/

/-- Python exception classes reachable from the modelled code, as one error
type. `attributeErrorNone` models Python's `AttributeError` raised when an
attribute or method is accessed on `None`; `indexError` models indexing an
empty list; `invalidOperation` models `decimal.InvalidOperation` raised by
`Decimal (str None)`. The remaining constructors are the repository's own
exception classes. -/
inductive PyErrorKind
  | enumNotFound
  | multipleUserProfilesWithSameType
  | multipleRecipientsWithSameAccountNumber
  | transferringMoneyToNonSelfOwnedAccounts
  | balanceForCurrencyNotFound
  | stockNotFound
  | stockDataNotAvailable
  | attributeErrorNone
  | indexError
  | invalidOperation
deriving DecidableEq, Repr

namespace Wise

/-- The currencies of `global_common.Currency`. -/
inductive Currency
  | USD
  | EUR
  | GBP
  | AUD
  | NZD
  | SGD
  | LKR
deriving DecidableEq, Repr

/-- The `value` of each `global_common.Currency` member. -/
def Currency.value : Currency → String
  | .USD => ("USD")
  | .EUR => ("EUR")
  | .GBP => ("GBP")
  | .AUD => ("AUD")
  | .NZD => ("NZD")
  | .SGD => ("SGD")
  | .LKR => ("LKR")

/-- Iteration order of `global_common.Currency` (declaration order). -/
def Currency.members : List Currency :=
  [.USD, .EUR, .GBP, .AUD, .NZD, .SGD, .LKR]

/-- The profile types of `wise.models.ProfileTypes`. -/
inductive ProfileTypes
  | PERSONAL
  | BUSINESS
deriving DecidableEq, Repr

/-- The `value` of each `ProfileTypes` member. -/
def ProfileTypes.value : ProfileTypes → String
  | .PERSONAL => ("personal")
  | .BUSINESS => ("business")

/-- Iteration order of `ProfileTypes` (declaration order). -/
def ProfileTypes.members : List ProfileTypes :=
  [.PERSONAL, .BUSINESS]

/-- Payload of the `InsufficientFundsException` message built in
`Transfer.execute`. The Python code interpolates these four quantities into
an f-string; the model keeps them structurally. `shortfall` is computed as
`receiving_amount - account_balance.balance`, exactly as in the source. -/
structure InsufficientFundsMsg where
  currency : Currency
  required : Rat
  account_balance : Rat
  shortfall : Rat
deriving DecidableEq, Repr

end Wise

/-- A Python exception value: its class together with the structured payload
of its message, for the two exception classes whose message content the
orchestration code builds and later re-uses (`InsufficientFundsException`
and `ClientErrorException`). -/
inductive PyError
  | kind (k : PyErrorKind)
  | insufficientFunds (msg : Wise.InsufficientFundsMsg)
  | clientError (msg : Option String)
deriving DecidableEq, Repr

/-- True exactly for the repository's domain "not found" exception classes
(`StockNotFoundException`, `BalanceForCurrencyNotFoundException`). The wise
module defines no recipient-not-found exception class. -/
def PyError.isNotFound : PyError → Bool
  | .kind .stockNotFound => true
  | .kind .balanceForCurrencyNotFound => true
  | _ => false

/-- `global_common.get_enum_from_value`: scan the members of an enumeration
in declaration order and return the first whose `value` equals the raw
value; raise `EnumNotFoundException` if none matches. -/
def get_enum_from_value {e : Type} (members : List e) (value : e → String)
    (v : String) : Except PyError e :=
  match members.find? (fun m => value m == v) with
  | some m => Except.ok m
  | none => Except.error (PyError.kind PyErrorKind.enumNotFound)

namespace Wise

/-- Raw `wise_models.UserProfile.details` payload. -/
structure WiseUserProfileDetails where
  firstName : String
  lastName : String
  dateOfBirth : String
deriving DecidableEq, Repr

/-- Raw `wise_models.UserProfile` payload. -/
structure WiseUserProfile where
  id : Nat
  type : String
  details : WiseUserProfileDetails
deriving DecidableEq, Repr

/-- Raw monetary sub-payload with a `value` field, as in
`wise_balance.amount.value` / `wise_balance.reservedAmount.value`. -/
structure WiseAmount where
  value : Rat
deriving DecidableEq, Repr

/-- Raw `wise_models.Balance` payload. -/
structure WiseBalance where
  currency : String
  amount : WiseAmount
  reservedAmount : WiseAmount
deriving DecidableEq, Repr

/-- Raw `wise_models.Account` payload. -/
structure WiseAccount where
  id : Nat
  profileId : Nat
  recipientId : Nat
  active : Bool
  balances : List WiseBalance
deriving DecidableEq, Repr

/-- Raw `wise_models.Recipient.details` payload. -/
structure WiseRecipientDetails where
  accountNumber : String
  swiftCode : String
  bankName : String
  branchName : String
  bic : String
deriving DecidableEq, Repr

/-- Raw `wise_models.Recipient` payload. -/
structure WiseRecipient where
  id : Nat
  profile : Nat
  accountHolderName : String
  currency : String
  active : Bool
  ownedByCustomer : Bool
  details : WiseRecipientDetails
deriving DecidableEq, Repr

/-- Raw `wise_models.Quote` payload (only its `id` is consumed). -/
structure WiseQuote where
  id : Nat
deriving DecidableEq, Repr

/-- Raw `wise_models.Transfer` payload. -/
structure WiseTransfer where
  id : Nat
  sourceCurrency : String
  targetCurrency : String
  sourceValue : Rat
  targetValue : Rat
  rate : Rat
deriving DecidableEq, Repr

/-- Raw `wise_models.Fund` payload. -/
structure WiseFund where
  status : String
  errorMessage : Option String
  errorCode : Option String
deriving DecidableEq, Repr

/-- The external transfer-provider API, as consumed by `wise/models.py`:
one total function per `wise_models.*.call` used by the orchestration. -/
structure WiseEnv where
  userProfiles : List WiseUserProfile
  accounts : Nat → List WiseAccount
  recipients : Nat → List WiseRecipient
  quote : Nat → String → String → Rat → Nat → WiseQuote
  transfer : Nat → Nat → String → WiseTransfer
  fund : Nat → Nat → WiseFund

/-- Side-effecting events performed by `Transfer.execute`, in program order.
The three `*_Call` events are the mutating upstream calls; the `notify*`
events are Telegram sends; the `log*` events are `logger.error` writes.
The payload carried by the client-error events is the error message of the
caught `ClientErrorException`; the payload of the insufficient-funds events
is the structured message of the caught `InsufficientFundsException`. -/
inductive Event
  | quoteCall
  | transferCall
  | fundCall
  | notifySuccess
  | logClientError (msg : Option String)
  | notifyClientFailure (msg : Option String)
  | logInsufficientFunds (msg : InsufficientFundsMsg)
  | notifyInsufficientFundsFailure (msg : InsufficientFundsMsg)
deriving DecidableEq, Repr

/-- True exactly for the two "ERROR: Money transfer failed" Telegram sends. -/
def Event.isFailureNotification : Event → Bool
  | .notifyClientFailure _ => true
  | .notifyInsufficientFundsFailure _ => true
  | _ => false

/-- Domain `wise.models.UserProfile`. -/
structure UserProfile where
  id : Nat
  type : ProfileTypes
  first_name : String
  last_name : String
  date_of_birth : String
deriving DecidableEq, Repr

/-- Loop body of `UserProfile.get_all`: map each raw profile, failing if its
`type` string is not a `ProfileTypes` value. -/
def UserProfile.build_all : List WiseUserProfile → Except PyError (List UserProfile)
  | [] => Except.ok []
  | wp :: rest =>
    match get_enum_from_value ProfileTypes.members ProfileTypes.value wp.type with
    | Except.error e => Except.error e
    | Except.ok t =>
      match UserProfile.build_all rest with
      | Except.error e => Except.error e
      | Except.ok l =>
        Except.ok (UserProfile.mk wp.id t wp.details.firstName wp.details.lastName
          wp.details.dateOfBirth :: l)

/-- `wise.models.UserProfile.get_all`. -/
def UserProfile.get_all (env : WiseEnv) : Except PyError (List UserProfile) :=
  UserProfile.build_all env.userProfiles

/-- Loop of `UserProfile.get_by_profile_type`: keep the first profile of the
requested type, raising `MultipleUserProfilesWithSameTypeException` on a
second match; `none` when no profile matches (Python returns `None`). -/
def UserProfile.pick_by_type : List UserProfile → ProfileTypes → Option UserProfile →
    Except PyError (Option UserProfile)
  | [], _, acc => Except.ok acc
  | up :: rest, profile_type, acc =>
    if up.type = profile_type then
      match acc with
      | none => UserProfile.pick_by_type rest profile_type (some up)
      | some _ => Except.error (PyError.kind PyErrorKind.multipleUserProfilesWithSameType)
    else UserProfile.pick_by_type rest profile_type acc

/-- `wise.models.UserProfile.get_by_profile_type`. -/
def UserProfile.get_by_profile_type (env : WiseEnv) (profile_type : ProfileTypes) :
    Except PyError (Option UserProfile) :=
  match UserProfile.get_all env with
  | Except.error e => Except.error e
  | Except.ok profiles => UserProfile.pick_by_type profiles profile_type none

/-- Domain `wise.models.AccountBalance`. -/
structure AccountBalance where
  currency : Currency
  balance : Rat
  reserved_amount : Rat
deriving DecidableEq, Repr

/-- `wise.models.AccountBalance.__init__`: maps the raw currency string,
failing with `EnumNotFoundException` if unmapped. -/
def AccountBalance.init (wise_balance : WiseBalance) : Except PyError AccountBalance :=
  match get_enum_from_value Currency.members Currency.value wise_balance.currency with
  | Except.error e => Except.error e
  | Except.ok c =>
    Except.ok (AccountBalance.mk c wise_balance.amount.value wise_balance.reservedAmount.value)

/-- Domain `wise.models.Account`. -/
structure Account where
  id : Nat
  profile_id : Nat
  recipient_id : Nat
  is_active : Bool
  balances_list : List AccountBalance
deriving DecidableEq, Repr

/-- Balance loop of `wise.models.Account.__init__`. -/
def Account.build_balances : List WiseBalance → Except PyError (List AccountBalance)
  | [] => Except.ok []
  | wb :: rest =>
    match AccountBalance.init wb with
    | Except.error e => Except.error e
    | Except.ok b =>
      match Account.build_balances rest with
      | Except.error e => Except.error e
      | Except.ok l => Except.ok (b :: l)

/-- `wise.models.Account.__init__`. -/
def Account.init (wise_account : WiseAccount) : Except PyError Account :=
  match Account.build_balances wise_account.balances with
  | Except.error e => Except.error e
  | Except.ok balances_list =>
    Except.ok (Account.mk wise_account.id wise_account.profileId wise_account.recipientId
      wise_account.active balances_list)

/-- Account loop of `wise.models.Account.get_by_profile_type`. -/
def Account.build_all : List WiseAccount → Except PyError (List Account)
  | [] => Except.ok []
  | wa :: rest =>
    match Account.init wa with
    | Except.error e => Except.error e
    | Except.ok a =>
      match Account.build_all rest with
      | Except.error e => Except.error e
      | Except.ok l => Except.ok (a :: l)

/-- `wise.models.Account.get_by_profile_type`. When no profile of the
requested type exists the Python code dereferences `user_profile.id` on
`None`, an `AttributeError`. -/
def Account.get_by_profile_type (env : WiseEnv) (profile_type : ProfileTypes) :
    Except PyError (List Account) :=
  match UserProfile.get_by_profile_type env profile_type with
  | Except.error e => Except.error e
  | Except.ok none => Except.error (PyError.kind PyErrorKind.attributeErrorNone)
  | Except.ok (some user_profile) => Account.build_all (env.accounts user_profile.id)

/-- `wise.models.AccountBalance.get_by_currency_and_profile_type`: scans the
balances of the first account (`[0]`, an `IndexError` when the account list
is empty) and raises `BalanceForCurrencyNotFoundException` when no balance
has the requested currency. -/
def AccountBalance.get_by_currency_and_profile_type (env : WiseEnv) (currency : Currency)
    (profile_type : ProfileTypes) : Except PyError AccountBalance :=
  match Account.get_by_profile_type env profile_type with
  | Except.error e => Except.error e
  | Except.ok [] => Except.error (PyError.kind PyErrorKind.indexError)
  | Except.ok (a :: _) =>
    match a.balances_list.find? (fun b => b.currency == currency) with
    | some b => Except.ok b
    | none => Except.error (PyError.kind PyErrorKind.balanceForCurrencyNotFound)

/-- Domain `wise.models.Recipient`. The source passes
`wise_recipient.details.swiftCode` for both `swift_code` and `iban`; the
model reproduces that. -/
structure Recipient where
  account_id : Nat
  profile_id : Nat
  name : String
  currency : Currency
  is_active : Bool
  is_self_owned : Bool
  account_number : String
  swift_code : String
  bank_name : String
  branch_name : String
  iban : String
  bic : String
deriving DecidableEq, Repr

/-- Recipient loop of `wise.models.Recipient.get_all_by_profile_type`. -/
def Recipient.build_all : List WiseRecipient → Except PyError (List Recipient)
  | [] => Except.ok []
  | wr :: rest =>
    match get_enum_from_value Currency.members Currency.value wr.currency with
    | Except.error e => Except.error e
    | Except.ok c =>
      match Recipient.build_all rest with
      | Except.error e => Except.error e
      | Except.ok l =>
        Except.ok (Recipient.mk wr.id wr.profile wr.accountHolderName c wr.active
          wr.ownedByCustomer wr.details.accountNumber wr.details.swiftCode
          wr.details.bankName wr.details.branchName wr.details.swiftCode wr.details.bic :: l)

/-- `wise.models.Recipient.get_all_by_profile_type`. As in
`Account.get_by_profile_type`, a missing profile is an `AttributeError`. -/
def Recipient.get_all_by_profile_type (env : WiseEnv) (profile_type : ProfileTypes) :
    Except PyError (List Recipient) :=
  match UserProfile.get_by_profile_type env profile_type with
  | Except.error e => Except.error e
  | Except.ok none => Except.error (PyError.kind PyErrorKind.attributeErrorNone)
  | Except.ok (some user_profile) => Recipient.build_all (env.recipients user_profile.id)

/-- Loop of `Recipient.get_by_account_number_and_profile_type`: first match
kept, second match raises `MultipleRecipientsWithSameAccountNumberException`;
`none` when no recipient matches (Python returns `None`). -/
def Recipient.pick_by_account_number : List Recipient → String → Option Recipient →
    Except PyError (Option Recipient)
  | [], _, acc => Except.ok acc
  | r :: rest, account_number, acc =>
    if r.account_number == account_number then
      match acc with
      | none => Recipient.pick_by_account_number rest account_number (some r)
      | some _ => Except.error (PyError.kind PyErrorKind.multipleRecipientsWithSameAccountNumber)
    else Recipient.pick_by_account_number rest account_number acc

/-- `wise.models.Recipient.get_by_account_number_and_profile_type`. -/
def Recipient.get_by_account_number_and_profile_type (env : WiseEnv)
    (account_number : String) (profile_type : ProfileTypes) :
    Except PyError (Option Recipient) :=
  match Recipient.get_all_by_profile_type env profile_type with
  | Except.error e => Except.error e
  | Except.ok recipients => Recipient.pick_by_account_number recipients account_number none

/-- Domain `wise.models.ExchangeRate`. -/
structure ExchangeRate where
  exchange_rate : Rat
  from_currency : Currency
  to_currency : Currency
deriving DecidableEq, Repr

/-- Domain `wise.models.Transfer`. -/
structure Transfer where
  profile_id : Nat
  from_currency : Currency
  to_currency : Currency
  from_amount : Rat
  to_amount : Rat
  recipient : Recipient
  exchange_rate : ExchangeRate
  is_successful : Bool
  error_message : Option String
  error_code : Option String
deriving DecidableEq, Repr

/-- `wise.models.Transfer.__init__`: maps the raw source/target currency
strings (each can raise `EnumNotFoundException`) and derives
`is_successful` from `wise_fund.status == "COMPLETED"`. -/
def Transfer.init (user_profile : UserProfile) (recipient : Recipient)
    (wise_transfer : WiseTransfer) (wise_fund : WiseFund) : Except PyError Transfer :=
  match get_enum_from_value Currency.members Currency.value wise_transfer.sourceCurrency with
  | Except.error e => Except.error e
  | Except.ok from_currency =>
    match get_enum_from_value Currency.members Currency.value wise_transfer.targetCurrency with
    | Except.error e => Except.error e
    | Except.ok to_currency =>
      Except.ok (Transfer.mk user_profile.id from_currency to_currency
        wise_transfer.sourceValue wise_transfer.targetValue recipient
        (ExchangeRate.mk wise_transfer.rate from_currency to_currency)
        (wise_fund.status == ("COMPLETED")) wise_fund.errorMessage wise_fund.errorCode)

/-- The same-currency balance pre-check at the top of the `try` block of
`Transfer.execute`: when the source and destination currency are identical,
look up the balance for that currency and raise
`InsufficientFundsException` when `account_balance.balance <
receiving_amount`, with the message carrying the required amount, the
account balance, and the shortfall `receiving_amount -
account_balance.balance`. -/
def Transfer.same_currency_precheck (env : WiseEnv) (receiving_amount : Rat)
    (from_currency to_currency : Currency) (profile_type : ProfileTypes) :
    Except PyError Unit :=
  if from_currency = to_currency then
    match AccountBalance.get_by_currency_and_profile_type env from_currency profile_type with
    | Except.error e => Except.error e
    | Except.ok account_balance =>
      if account_balance.balance < receiving_amount then
        Except.error (PyError.insufficientFunds
          (InsufficientFundsMsg.mk from_currency receiving_amount account_balance.balance
            (receiving_amount - account_balance.balance)))
      else Except.ok ()
  else Except.ok ()

/-- The body of the `try` block of `wise.models.Transfer.execute`: the
same-currency balance pre-check, profile resolution, then the
quote → transfer → fund call sequence, the construction of the domain
`Transfer`, and either the success notification (`Except.ok`) or the
`raise ClientErrorException(transfer.error_message)` on a fund status other
than COMPLETED. The second component is the event trace accumulated inside
the block. A `None` profile is an `AttributeError` at `user_profile.id`,
raised while evaluating the arguments of the quote call, hence before it. -/
def Transfer.executeTry (env : WiseEnv) (receiving_amount : Rat)
    (from_currency to_currency : Currency) (recipient : Recipient)
    (reference : String) (profile_type : ProfileTypes) :
    Except PyError Transfer × List Event :=
  match Transfer.same_currency_precheck env receiving_amount from_currency to_currency profile_type with
  | Except.error e => (Except.error e, [])
  | Except.ok _ =>
    match UserProfile.get_by_profile_type env profile_type with
    | Except.error e => (Except.error e, [])
    | Except.ok none => (Except.error (PyError.kind PyErrorKind.attributeErrorNone), [])
    | Except.ok (some user_profile) =>
      let wise_quote := env.quote user_profile.id from_currency.value to_currency.value
        receiving_amount recipient.account_id
      let wise_transfer := env.transfer recipient.account_id wise_quote.id reference
      let wise_fund := env.fund user_profile.id wise_transfer.id
      match Transfer.init user_profile recipient wise_transfer wise_fund with
      | Except.error e => (Except.error e, [Event.quoteCall, Event.transferCall, Event.fundCall])
      | Except.ok transfer =>
        if transfer.is_successful then
          (Except.ok transfer,
            [Event.quoteCall, Event.transferCall, Event.fundCall, Event.notifySuccess])
        else
          (Except.error (PyError.clientError transfer.error_message),
            [Event.quoteCall, Event.transferCall, Event.fundCall])

/-- `wise.models.Transfer.execute`. Recipient resolution and the self-owned
check happen before the `try` block (a `None` recipient is an
`AttributeError` at `recipient.is_self_owned`). The two `except` clauses are
modelled on the result of the `try` body: a `ClientErrorException` is
logged, reported by one failure notification, and swallowed — control falls
through to `return None`; an `InsufficientFundsException` is logged,
reported by one failure notification, and re-raised with the same message.
Every other exception propagates unchanged. -/
def Transfer.execute (env : WiseEnv) (receiving_amount : Rat)
    (from_currency to_currency : Currency) (recipient_account_number : String)
    (reference : String) (profile_type : ProfileTypes) :
    Except PyError (Option Transfer) × List Event :=
  match Recipient.get_by_account_number_and_profile_type env recipient_account_number profile_type with
  | Except.error e => (Except.error e, [])
  | Except.ok none => (Except.error (PyError.kind PyErrorKind.attributeErrorNone), [])
  | Except.ok (some recipient) =>
    if !recipient.is_self_owned then
      (Except.error (PyError.kind PyErrorKind.transferringMoneyToNonSelfOwnedAccounts), [])
    else
      match Transfer.executeTry env receiving_amount from_currency to_currency recipient
          reference profile_type with
      | (Except.ok transfer, trace) => (Except.ok (some transfer), trace)
      | (Except.error (PyError.clientError m), trace) =>
        (Except.ok none, trace ++ [Event.logClientError m, Event.notifyClientFailure m])
      | (Except.error (PyError.insufficientFunds m), trace) =>
        (Except.error (PyError.insufficientFunds m),
          trace ++ [Event.logInsufficientFunds m, Event.notifyInsufficientFundsFailure m])
      | (Except.error e, trace) => (Except.error e, trace)

end Wise

namespace Ibkr

/-- The instrument types of `ibkr.models.InstrumentType`. -/
inductive InstrumentType
  | STOCK
  | CASH
  | OPTION
  | INDEX
deriving DecidableEq, Repr

/-- The `value` of each `InstrumentType` member. -/
def InstrumentType.value : InstrumentType → String
  | .STOCK => ("STK")
  | .CASH => ("CASH")
  | .OPTION => ("OPT")
  | .INDEX => ("IND")

/-- Iteration order of `InstrumentType` (declaration order). -/
def InstrumentType.members : List InstrumentType :=
  [.STOCK, .CASH, .OPTION, .INDEX]

/-- The order types of `ibkr.models.OrderType`. -/
inductive OrderType
  | MARKET
  | LIMIT
  | STOP
  | STOP_LIMIT
  | MIDPRICE
deriving DecidableEq, Repr

/-- The `value` of each `OrderType` member. -/
def OrderType.value : OrderType → String
  | .MARKET => ("MKT")
  | .LIMIT => ("LMT")
  | .STOP => ("STP")
  | .STOP_LIMIT => ("STOP_LIMIT")
  | .MIDPRICE => ("MIDPRICE")

/-- The sides of `ibkr.models.OrderSide`. -/
inductive OrderSide
  | BUY
  | SELL
deriving DecidableEq, Repr

/-- The time-in-force values of `ibkr.models.OrderTimeInForce`. -/
inductive OrderTimeInForce
  | GOOD_TILL_CANCEL
  | DAY
deriving DecidableEq, Repr

/-- The exchanges of `ibkr.models.StockExchanges`. -/
inductive StockExchanges
  | SMART
  | NASDAQ
  | AMEX
  | NYSE
  | CBOE
deriving DecidableEq, Repr

/-- The `value` of each `StockExchanges` member. -/
def StockExchanges.value : StockExchanges → String
  | .SMART => ("SMART")
  | .NASDAQ => ("NASDAQ")
  | .AMEX => ("AMEX")
  | .NYSE => ("NYSE")
  | .CBOE => ("CBOE")

/-- The statuses of `ibkr.models.OrderStatus`. -/
inductive OrderStatus
  | SUBMITTED
  | INACTIVE
  | CANCELLED
  | PENDING_SUBMIT
deriving DecidableEq, Repr

/-- The `value` of each `OrderStatus` member. -/
def OrderStatus.value : OrderStatus → String
  | .SUBMITTED => ("Submitted")
  | .INACTIVE => ("Inactive")
  | .CANCELLED => ("Cancelled")
  | .PENDING_SUBMIT => ("PendingSubmit")

/-- One entry of the raw `ibkr_models.StockSearchResults` list. -/
structure StockSearchResult where
  conid : Nat
  description : String
deriving DecidableEq, Repr

/-- Raw `ibkr_models.Contract` payload, as consumed by `Instrument.get`. -/
structure RawContract where
  con_id : Option Nat
  symbol : String
  instrument_type : String
  valid_exchanges : List String
  exchange : String
  company_name : String
deriving DecidableEq, Repr

/-- Raw `ibkr_models.MarketDataSnapshot` payload: every numeric field may be
absent. Present values stand for the already-parsed numeric content of the
raw string fields (string-to-`Decimal` parsing, the C/H and percent-sign
stripping, and the magnitude-suffix expansion are abstracted to the
identity; they operate only on present values). -/
structure MarketDataSnapshot where
  open_price : Option Rat
  close_price : Option Rat
  current_day_high_price : Option Rat
  current_day_low_price : Option Rat
  last_price : Option Rat
  change_in_currency : Option Rat
  change_in_percentage : Option Rat
  bid_price : Option Rat
  ask_price : Option Rat
  ask_size : Option Rat
  bid_size : Option Rat
  volume : Option Rat
  option_volume : Option Rat
  dividend_amount : Option Rat
  dividend_yield : Option Rat
  market_capitalization : Option Rat
  price_to_earnings_ratio : Option Rat
  earnings_per_share : Option Rat
deriving DecidableEq, Repr

/-- The external brokerage API as consumed by `Instrument.get`:
`stock_search_results_list` may be absent (`None`) on the raw search
response, and the contract and snapshot calls receive the possibly-unset
contract id selected from the search results. -/
structure IbkrEnv where
  search : String → Option (List StockSearchResult)
  contract : Option Nat → RawContract
  snapshot : Option Nat → MarketDataSnapshot

/-- The upstream calls of the ibkr module. `placeOrderCall` and
`cancelOrderCall` are its only mutating calls; the other three are reads. -/
inductive IbkrEvent
  | searchCall
  | contractCall
  | snapshotCall
  | placeOrderCall
  | cancelOrderCall
deriving DecidableEq, Repr

/-- True exactly for the mutating brokerage calls. -/
def IbkrEvent.isMutating : IbkrEvent → Bool
  | .placeOrderCall => true
  | .cancelOrderCall => true
  | _ => false

/-- Domain `ibkr.models.Instrument`. Fields that the constructor sets only
when the corresponding argument is present are `Option Rat` (`none` models
the Python attribute staying unset); `last_price`, `change_in_currency` and
`change_in_percentage` are set unconditionally. -/
structure Instrument where
  symbol : String
  contract_id : Nat
  instrument_type : InstrumentType
  exchanges_list : List String
  main_exchange : String
  name : String
  open_price : Option Rat
  close_price : Option Rat
  high_price : Option Rat
  low_price : Option Rat
  last_price : Rat
  change_in_currency : Rat
  change_in_percentage : Rat
  bid_price : Option Rat
  ask_price : Option Rat
  ask_size : Option Rat
  bid_size : Option Rat
  volume : Option Rat
  option_volume : Option Rat
  dividend_amount : Option Rat
  dividend_yield : Option Rat
  market_capitalization : Option Rat
  price_to_earnings_ratio : Option Rat
  earnings_per_share : Option Rat
deriving DecidableEq, Repr

/-- `ibkr.models.Instrument.__init__`. A `None` contract id raises
`StockDataNotAvailableException`. `last_price` is used unguarded as
`last_price.replace(...)`, so a `None` there is an `AttributeError`;
`change_in_currency` and `change_in_percentage` are used unguarded as
`Decimal(str(...))`, so a `None` there is a `decimal.InvalidOperation`.
Every other numeric argument is guarded by `if ... is not None` and its
absence leaves the field unset. The `instrument_type` string is mapped via
`get_enum_from_value`, which raises on an unmapped value. -/
def Instrument.init (symbol : String) (contract_id : Option Nat) (instrument_type : String)
    (exchanges_list : List String) (main_exchange : String) (name : String)
    (open_price close_price high_price low_price last_price
     change_in_currency change_in_percentage bid_price ask_price
     ask_size bid_size volume option_volume dividend_amount dividend_yield
     market_capitalization price_to_earnings_ratio earnings_per_share : Option Rat) :
    Except PyError Instrument :=
  match contract_id with
  | none => Except.error (PyError.kind PyErrorKind.stockDataNotAvailable)
  | some cid =>
    match last_price with
    | none => Except.error (PyError.kind PyErrorKind.attributeErrorNone)
    | some lp =>
      match change_in_currency with
      | none => Except.error (PyError.kind PyErrorKind.invalidOperation)
      | some cic =>
        match change_in_percentage with
        | none => Except.error (PyError.kind PyErrorKind.invalidOperation)
        | some cip =>
          match get_enum_from_value InstrumentType.members InstrumentType.value instrument_type with
          | Except.error e => Except.error e
          | Except.ok it =>
            Except.ok (Instrument.mk symbol cid it exchanges_list main_exchange name
              open_price close_price high_price low_price lp cic cip bid_price ask_price
              ask_size bid_size volume option_volume dividend_amount dividend_yield
              market_capitalization price_to_earnings_ratio earnings_per_share)

/-- `ibkr.models.Instrument.get`. A search response whose result list is
`None` raises `StockNotFoundException` before the contract and snapshot
calls. Otherwise the first result whose description equals the requested
exchange's value provides the contract id (possibly none), the contract and
snapshot are fetched, a contract of the wrong instrument type raises
`StockNotFoundException`, and the `Instrument` is constructed. The second
component is the trace of upstream calls, all of them reads. -/
def Instrument.get (env : IbkrEnv) (symbol : String) (instrument_type : InstrumentType)
    (exchange : StockExchanges) : Except PyError Instrument × List IbkrEvent :=
  match env.search symbol with
  | none => (Except.error (PyError.kind PyErrorKind.stockNotFound), [IbkrEvent.searchCall])
  | some results =>
    let contract_id : Option Nat :=
      (results.find? (fun r => r.description == exchange.value)).map (fun r => r.conid)
    let contract := env.contract contract_id
    let snapshot := env.snapshot contract_id
    let trace := [IbkrEvent.searchCall, IbkrEvent.contractCall, IbkrEvent.snapshotCall]
    if contract.instrument_type ≠ instrument_type.value then
      (Except.error (PyError.kind PyErrorKind.stockNotFound), trace)
    else
      (Instrument.init contract.symbol contract.con_id contract.instrument_type
        contract.valid_exchanges contract.exchange contract.company_name
        snapshot.open_price snapshot.close_price snapshot.current_day_high_price
        snapshot.current_day_low_price snapshot.last_price snapshot.change_in_currency
        snapshot.change_in_percentage snapshot.bid_price snapshot.ask_price
        snapshot.ask_size snapshot.bid_size snapshot.volume snapshot.option_volume
        snapshot.dividend_amount snapshot.dividend_yield snapshot.market_capitalization
        snapshot.price_to_earnings_ratio snapshot.earnings_per_share, trace)

/-- Domain `ibkr.models.PlaceOrder` request object. The dataclass field
`secType` is an annotation without a value and is never assigned by the
constructor, so it is omitted here. `price`, `custom_order_id`,
`outsideRTH` and `tif` have class-level defaults. -/
structure PlaceOrder where
  symbol : String
  orderType : OrderType
  side : OrderSide
  quantity : Rat
  price : Option Rat
  custom_order_id : String
  outsideRTH : Bool
  tif : OrderTimeInForce
  account_id : String
deriving DecidableEq, Repr

/-- `ibkr.models.PlaceOrder.__init__`. `class_default_custom_order_id` is
the `str(uuid.uuid4())` evaluated a single time when the class body is
executed: the constructor takes no token argument and never assigns
`custom_order_id`, so every instance reads this one shared class attribute.
For a non-MARKET order the price argument is converted with
`Decimal(str(price))`: a `None` price becomes `Decimal("None")`, a
`decimal.InvalidOperation`. For a MARKET order `price` keeps its class
default `None` and `outsideRTH` is set to `False`. The constructor performs
no network call. -/
def PlaceOrder.init (class_default_custom_order_id : String) (symbol : String)
    (orderType : OrderType) (side : OrderSide) (quantity : Int) (price : Option Rat)
    (account_id : String) : Except PyError PlaceOrder :=
  if orderType ≠ OrderType.MARKET then
    match price with
    | none => Except.error (PyError.kind PyErrorKind.invalidOperation)
    | some p =>
      Except.ok (PlaceOrder.mk symbol orderType side ((quantity : Int) : Rat) (some p)
        class_default_custom_order_id true OrderTimeInForce.GOOD_TILL_CANCEL account_id)
  else
    Except.ok (PlaceOrder.mk symbol orderType side ((quantity : Int) : Rat) none
      class_default_custom_order_id false OrderTimeInForce.GOOD_TILL_CANCEL account_id)

/-- Raw `ibkr_models.PlaceOrderResponse` payload. -/
structure RawPlaceOrderResponse where
  is_successful : Bool
  order_status : String
  order_id : String
  text : Option String
deriving DecidableEq, Repr

/-- The literal substring whose presence in the response text triggers the
auto-cancel timestamp extraction in `PlaceOrderResponse.__init__`. -/
def autoCancelMarker : String :=
  ("will be automatically canceled at 20220101 13:00:00 HKT")

/-- Python's `in` operator on strings: for a non-empty pattern, `splitOn`
returns more than one piece exactly when the pattern occurs. -/
def strContains (s pat : String) : Bool :=
  (s.splitOn pat).length != 1

/-- Domain `ibkr.models.PlaceOrderResponse`. `order_cancelled` holds the
extracted auto-cancel datetime string (timezone attachment is outside this
model); it stays unset (`none`) when the marker text is absent. -/
structure PlaceOrderResponse where
  is_order_placed : Bool
  ibkr_order_id : String
  order_id : String
  order_cancelled : Option String
  response_text : Option String
deriving DecidableEq, Repr

/-- `ibkr.models.PlaceOrderResponse.__init__`: `is_order_placed` is the
conjunction of the transport-level `is_successful` flag with the status
string equalling `OrderStatus.SUBMITTED.value`; the auto-cancel timestamp
is extracted from the response text when the marker substring occurs. -/
def PlaceOrderResponse.init (order_response : RawPlaceOrderResponse) : PlaceOrderResponse :=
  let order_cancelled : Option String :=
    match order_response.text with
    | none => none
    | some t =>
      if strContains t autoCancelMarker then
        some (((t.splitOn ("will be automatically canceled at ")).getLast!).replace (" HKT") (""))
      else none
  PlaceOrderResponse.mk
    (order_response.is_successful && (order_response.order_status == OrderStatus.SUBMITTED.value))
    order_response.order_id order_response.order_id order_cancelled order_response.text

/-- Every successful construction carries the class-level shared token. -/
theorem PlaceOrder.init_custom_order_id (class_default_custom_order_id symbol : String)
    (orderType : OrderType) (side : OrderSide) (quantity : Int) (price : Option Rat)
    (account_id : String) (o : PlaceOrder)
    (h : PlaceOrder.init class_default_custom_order_id symbol orderType side quantity price
      account_id = Except.ok o) :
    o.custom_order_id = class_default_custom_order_id := by
  unfold PlaceOrder.init at h
  split at h
  · cases price with
    | none => exact absurd h (by simp)
    | some p =>
      simp only [Except.ok.injEq] at h
      rw [← h]
  · simp only [Except.ok.injEq] at h
    rw [← h]

end Ibkr

deriving instance DecidableEq for Except

/-- C3: for every brokerage order-placement response, the constructed
`PlaceOrderResponse`'s success flag `is_order_placed` is true if and only if
the transport-level success flag is true and the broker-reported status
string equals the literal "Submitted". -/
theorem place_order_response_success_iff (order_response : Ibkr.RawPlaceOrderResponse) :
    (Ibkr.PlaceOrderResponse.init order_response).is_order_placed =
      (order_response.is_successful && (order_response.order_status == ("Submitted"))) :=
  rfl

/-- C4: any two `PlaceOrder` request objects built by the constructor (which
takes no token argument) and sharing the one class-definition-time default
token have equal `custom_order_id` fields: the default is generated a single
time when the class body runs and is reused by every instance. -/
theorem place_order_shared_custom_order_id (class_default_custom_order_id : String)
    (symbol1 : String) (orderType1 : Ibkr.OrderType) (side1 : Ibkr.OrderSide)
    (quantity1 : Int) (price1 : Option Rat) (account_id1 : String)
    (symbol2 : String) (orderType2 : Ibkr.OrderType) (side2 : Ibkr.OrderSide)
    (quantity2 : Int) (price2 : Option Rat) (account_id2 : String)
    (o1 o2 : Ibkr.PlaceOrder)
    (h1 : Ibkr.PlaceOrder.init class_default_custom_order_id symbol1 orderType1 side1
      quantity1 price1 account_id1 = Except.ok o1)
    (h2 : Ibkr.PlaceOrder.init class_default_custom_order_id symbol2 orderType2 side2
      quantity2 price2 account_id2 = Except.ok o2) :
    o1.custom_order_id = o2.custom_order_id := by
  rw [Ibkr.PlaceOrder.init_custom_order_id _ _ _ _ _ _ _ _ h1,
    Ibkr.PlaceOrder.init_custom_order_id _ _ _ _ _ _ _ _ h2]

/-- Witness for C4: two distinct concrete requests built from the same
class-level default token carry the same `custom_order_id`. -/
theorem place_order_shared_custom_order_id_witness :
    (Ibkr.PlaceOrder.init ("3f2a") ("AAPL") Ibkr.OrderType.MARKET Ibkr.OrderSide.BUY 3 none
      ("U100") = Except.ok (Ibkr.PlaceOrder.mk ("AAPL") Ibkr.OrderType.MARKET
        Ibkr.OrderSide.BUY 3 none ("3f2a") false Ibkr.OrderTimeInForce.GOOD_TILL_CANCEL ("U100")))
    ∧ (Ibkr.PlaceOrder.init ("3f2a") ("MSFT") Ibkr.OrderType.LIMIT Ibkr.OrderSide.SELL 7
      (some 250) ("U200") = Except.ok (Ibkr.PlaceOrder.mk ("MSFT") Ibkr.OrderType.LIMIT
        Ibkr.OrderSide.SELL 7 (some 250) ("3f2a") true Ibkr.OrderTimeInForce.GOOD_TILL_CANCEL ("U200")))
    ∧ (Ibkr.PlaceOrder.mk ("AAPL") Ibkr.OrderType.MARKET Ibkr.OrderSide.BUY 3 none ("3f2a")
        false Ibkr.OrderTimeInForce.GOOD_TILL_CANCEL ("U100")).custom_order_id =
      (Ibkr.PlaceOrder.mk ("MSFT") Ibkr.OrderType.LIMIT Ibkr.OrderSide.SELL 7 (some 250) ("3f2a")
        true Ibkr.OrderTimeInForce.GOOD_TILL_CANCEL ("U200")).custom_order_id :=
  ⟨by decide, by decide,
    place_order_shared_custom_order_id ("3f2a") ("AAPL") Ibkr.OrderType.MARKET
      Ibkr.OrderSide.BUY 3 none ("U100") ("MSFT") Ibkr.OrderType.LIMIT Ibkr.OrderSide.SELL 7
      (some 250) ("U200") _ _ (by decide) (by decide)⟩

/-- C9: every `PlaceOrder` request constructed with `orderType = MARKET` has
`price = none` and `outsideRTH = false`, regardless of the price argument
supplied to the constructor. -/
theorem place_order_market_defaults (class_default_custom_order_id symbol : String)
    (side : Ibkr.OrderSide) (quantity : Int) (price : Option Rat) (account_id : String) :
    Ibkr.PlaceOrder.init class_default_custom_order_id symbol Ibkr.OrderType.MARKET side
      quantity price account_id =
      Except.ok (Ibkr.PlaceOrder.mk symbol Ibkr.OrderType.MARKET side ((quantity : Int) : Rat)
        none class_default_custom_order_id false Ibkr.OrderTimeInForce.GOOD_TILL_CANCEL
        account_id) := by
  unfold Ibkr.PlaceOrder.init
  simp

/-- C10: constructing a `PlaceOrder` with `orderType ≠ MARKET` and a null
price raises `decimal.InvalidOperation` (from `Decimal (str None)`); the
constructor performs no network call, so the failure precedes any. -/
theorem place_order_non_market_null_price_fails (class_default_custom_order_id symbol : String)
    (orderType : Ibkr.OrderType) (side : Ibkr.OrderSide) (quantity : Int) (account_id : String)
    (h : orderType ≠ Ibkr.OrderType.MARKET) :
    Ibkr.PlaceOrder.init class_default_custom_order_id symbol orderType side quantity none
      account_id = Except.error (PyError.kind PyErrorKind.invalidOperation) := by
  unfold Ibkr.PlaceOrder.init
  simp [h]

/-- Witness for C10: a LIMIT order with a null price fails construction. -/
theorem place_order_non_market_null_price_fails_witness :
    (Ibkr.OrderType.LIMIT ≠ Ibkr.OrderType.MARKET)
    ∧ Ibkr.PlaceOrder.init ("3f2a") ("AAPL") Ibkr.OrderType.LIMIT Ibkr.OrderSide.BUY 3 none
      ("U100") = Except.error (PyError.kind PyErrorKind.invalidOperation) :=
  ⟨by decide,
    place_order_non_market_null_price_fails ("3f2a") ("AAPL") Ibkr.OrderType.LIMIT
      Ibkr.OrderSide.BUY 3 ("U100") (by decide)⟩

/-- C6: when the symbol search returns no results (the raw result list is
absent), `Instrument.get` fails with `StockNotFoundException` after the one
search read, and its trace contains no mutating brokerage call. -/
theorem instrument_get_no_search_results (env : Ibkr.IbkrEnv) (symbol : String)
    (instrument_type : Ibkr.InstrumentType) (exchange : Ibkr.StockExchanges)
    (h : env.search symbol = none) :
    Ibkr.Instrument.get env symbol instrument_type exchange =
      (Except.error (PyError.kind PyErrorKind.stockNotFound), [Ibkr.IbkrEvent.searchCall])
    ∧ (Ibkr.Instrument.get env symbol instrument_type exchange).2.all
        (fun e => !e.isMutating) = true := by
  unfold Ibkr.Instrument.get
  rw [h]
  exact ⟨rfl, rfl⟩

/-- A brokerage environment whose symbol index is empty: every search comes
back without a result list. -/
def emptySearchIbkrEnv : Ibkr.IbkrEnv where
  search := fun _ => none
  contract := fun _ =>
    Ibkr.RawContract.mk (some 265598) ("AAPL") ("STK") [("NASDAQ")] ("NASDAQ") ("Apple Inc")
  snapshot := fun _ =>
    Ibkr.MarketDataSnapshot.mk none none none none (some 150) (some 1) (some 1) none none
      none none none none none none none none none

/-- Witness for C6: a concrete lookup against the empty index fails with
`StockNotFoundException` after only the search read. -/
theorem instrument_get_no_search_results_witness :
    (emptySearchIbkrEnv.search ("AAPL") = none)
    ∧ (Ibkr.Instrument.get emptySearchIbkrEnv ("AAPL") Ibkr.InstrumentType.STOCK
        Ibkr.StockExchanges.NASDAQ =
        (Except.error (PyError.kind PyErrorKind.stockNotFound), [Ibkr.IbkrEvent.searchCall])
      ∧ (Ibkr.Instrument.get emptySearchIbkrEnv ("AAPL") Ibkr.InstrumentType.STOCK
          Ibkr.StockExchanges.NASDAQ).2.all (fun e => !e.isMutating) = true) :=
  ⟨rfl,
    instrument_get_no_search_results emptySearchIbkrEnv ("AAPL") Ibkr.InstrumentType.STOCK
      Ibkr.StockExchanges.NASDAQ rfl⟩

/-- Counterexample for C7: a construction whose only absent numeric field is
the last price (the contract id is present) does not succeed with the field
left unset — it fails, and with `AttributeError` (from
`None.replace`), not with `StockDataNotAvailableException`. -/
theorem instrument_absent_last_price_counterexample :
    Ibkr.Instrument.init ("AAPL") (some 265598) ("STK") [("NASDAQ")] ("NASDAQ") ("Apple Inc")
      (some 149) (some 148) (some 151) (some 147) none (some 2) (some 1) (some 150) (some 151)
      (some 300) (some 200) (some 1000000) (some 5000) (some 1) (some 1) (some 2000000)
      (some 25) (some 6) = Except.error (PyError.kind PyErrorKind.attributeErrorNone)
    ∧ PyError.kind PyErrorKind.attributeErrorNone ≠ PyError.kind PyErrorKind.stockDataNotAvailable := by
  exact ⟨rfl, by decide⟩

/-- C7 as amended: absence of any guarded numeric field (open/close/high/low
price, bid/ask price and size, volume, option volume, dividend amount and
yield, market capitalization, price-to-earnings ratio, earnings per share)
is tolerated — the field stays unset and construction succeeds; absence of
`contract_id` fails construction with `StockDataNotAvailableException`; but
absence of `last_price`, `change_in_currency` or `change_in_percentage` is
not tolerated — construction fails with a runtime conversion error
(`AttributeError` or `decimal.InvalidOperation`), not
`StockDataNotAvailableException`. -/
theorem instrument_optional_fields_amended (symbol instrument_type : String)
    (exchanges_list : List String) (main_exchange name : String)
    (open_price close_price high_price low_price bid_price ask_price ask_size bid_size
     volume option_volume dividend_amount dividend_yield market_capitalization
     price_to_earnings_ratio earnings_per_share : Option Rat)
    (last_price_arg change_in_currency_arg change_in_percentage_arg : Option Rat)
    (cid : Nat) (lp cic cip : Rat) (it : Ibkr.InstrumentType)
    (hit : get_enum_from_value Ibkr.InstrumentType.members Ibkr.InstrumentType.value
      instrument_type = Except.ok it) :
    (Ibkr.Instrument.init symbol none instrument_type exchanges_list main_exchange name
      open_price close_price high_price low_price last_price_arg change_in_currency_arg
      change_in_percentage_arg bid_price ask_price ask_size bid_size volume option_volume
      dividend_amount dividend_yield market_capitalization price_to_earnings_ratio
      earnings_per_share = Except.error (PyError.kind PyErrorKind.stockDataNotAvailable))
    ∧ (Ibkr.Instrument.init symbol (some cid) instrument_type exchanges_list main_exchange name
      open_price close_price high_price low_price (some lp) (some cic) (some cip) bid_price
      ask_price ask_size bid_size volume option_volume dividend_amount dividend_yield
      market_capitalization price_to_earnings_ratio earnings_per_share =
      Except.ok (Ibkr.Instrument.mk symbol cid it exchanges_list main_exchange name open_price
        close_price high_price low_price lp cic cip bid_price ask_price ask_size bid_size
        volume option_volume dividend_amount dividend_yield market_capitalization
        price_to_earnings_ratio earnings_per_share))
    ∧ (Ibkr.Instrument.init symbol (some cid) instrument_type exchanges_list main_exchange name
      open_price close_price high_price low_price none change_in_currency_arg
      change_in_percentage_arg bid_price ask_price ask_size bid_size volume option_volume
      dividend_amount dividend_yield market_capitalization price_to_earnings_ratio
      earnings_per_share = Except.error (PyError.kind PyErrorKind.attributeErrorNone))
    ∧ (Ibkr.Instrument.init symbol (some cid) instrument_type exchanges_list main_exchange name
      open_price close_price high_price low_price (some lp) none change_in_percentage_arg
      bid_price ask_price ask_size bid_size volume option_volume dividend_amount dividend_yield
      market_capitalization price_to_earnings_ratio earnings_per_share =
      Except.error (PyError.kind PyErrorKind.invalidOperation))
    ∧ (Ibkr.Instrument.init symbol (some cid) instrument_type exchanges_list main_exchange name
      open_price close_price high_price low_price (some lp) (some cic) none bid_price ask_price
      ask_size bid_size volume option_volume dividend_amount dividend_yield
      market_capitalization price_to_earnings_ratio earnings_per_share =
      Except.error (PyError.kind PyErrorKind.invalidOperation)) := by
  refine ⟨rfl, ?_, rfl, rfl, rfl⟩
  simp only [Ibkr.Instrument.init, hit]

/-- Witness for C7 as amended: a concrete run of all five branches, with
every guarded field absent in the success branch (each stays unset). -/
theorem instrument_optional_fields_amended_witness :
    (get_enum_from_value Ibkr.InstrumentType.members Ibkr.InstrumentType.value ("STK") =
      Except.ok Ibkr.InstrumentType.STOCK)
    ∧ ((Ibkr.Instrument.init ("AAPL") none ("STK") [] ("NASDAQ") ("Apple Inc")
      none none none none none none none none none none none none none none none none none
      none = Except.error (PyError.kind PyErrorKind.stockDataNotAvailable))
    ∧ (Ibkr.Instrument.init ("AAPL") (some 265598) ("STK") [] ("NASDAQ") ("Apple Inc")
      none none none none (some 150) (some 2) (some 1) none none none none none none none
      none none none none =
      Except.ok (Ibkr.Instrument.mk ("AAPL") 265598 Ibkr.InstrumentType.STOCK [] ("NASDAQ")
        ("Apple Inc") none none none none 150 2 1 none none none none none none none none none
        none none))
    ∧ (Ibkr.Instrument.init ("AAPL") (some 265598) ("STK") [] ("NASDAQ") ("Apple Inc")
      none none none none none none none none none none none none none none none none none
      none = Except.error (PyError.kind PyErrorKind.attributeErrorNone))
    ∧ (Ibkr.Instrument.init ("AAPL") (some 265598) ("STK") [] ("NASDAQ") ("Apple Inc")
      none none none none (some 150) none none none none none none none none none none none
      none none = Except.error (PyError.kind PyErrorKind.invalidOperation))
    ∧ (Ibkr.Instrument.init ("AAPL") (some 265598) ("STK") [] ("NASDAQ") ("Apple Inc")
      none none none none (some 150) (some 2) none none none none none none none none none
      none none none = Except.error (PyError.kind PyErrorKind.invalidOperation))) :=
  ⟨by decide,
    instrument_optional_fields_amended ("AAPL") ("STK") [] ("NASDAQ") ("Apple Inc")
      none none none none none none none none none none none none none none none
      none none none 265598 150 2 1 Ibkr.InstrumentType.STOCK (by decide)⟩

/-- A constructed domain `Transfer` carries the success flag and error
message derived from the raw fund payload. -/
theorem Wise.Transfer.init_ok_flags (user_profile : Wise.UserProfile)
    (recipient : Wise.Recipient) (wise_transfer : Wise.WiseTransfer)
    (wise_fund : Wise.WiseFund) (t : Wise.Transfer)
    (h : Wise.Transfer.init user_profile recipient wise_transfer wise_fund = Except.ok t) :
    t.is_successful = (wise_fund.status == ("COMPLETED"))
    ∧ t.error_message = wise_fund.errorMessage := by
  unfold Wise.Transfer.init at h
  split at h
  · exact absurd h (by simp)
  · split at h
    · exact absurd h (by simp)
    · simp only [Except.ok.injEq] at h
      rw [← h]
      exact ⟨rfl, rfl⟩

/-- A transfer-provider environment with one personal profile (id 1), a USD
balance of 50 on its first account, a self-owned recipient with account
number "123", a non-self-owned one with "456", and a funding step that
always reports status FAILED with an error message. -/
def wiseSampleEnv : Wise.WiseEnv where
  userProfiles :=
    [Wise.WiseUserProfile.mk 1 ("personal")
      (Wise.WiseUserProfileDetails.mk ("Kavindu") ("Athaudha") ("1990-01-01"))]
  accounts := fun _ =>
    [Wise.WiseAccount.mk 10 1 0 true
      [Wise.WiseBalance.mk ("USD") (Wise.WiseAmount.mk 50) (Wise.WiseAmount.mk 0)]]
  recipients := fun _ =>
    [Wise.WiseRecipient.mk 7 1 ("Self Account") ("USD") true true
      (Wise.WiseRecipientDetails.mk ("123") ("SW1") ("Bank A") ("Branch A") ("BIC1")),
     Wise.WiseRecipient.mk 8 1 ("Other Person") ("USD") true false
      (Wise.WiseRecipientDetails.mk ("456") ("SW2") ("Bank B") ("Branch B") ("BIC2"))]
  quote := fun _ _ _ _ _ => Wise.WiseQuote.mk 100
  transfer := fun _ _ _ => Wise.WiseTransfer.mk 200 ("USD") ("EUR") 100 90 1
  fund := fun _ _ => Wise.WiseFund.mk ("FAILED") (some ("fund failed")) (some ("E1"))

/-- The domain view of the self-owned sample recipient (note the source
assigns `details.swiftCode` to both `swift_code` and `iban`). -/
def selfSampleRecipient : Wise.Recipient :=
  Wise.Recipient.mk 7 1 ("Self Account") Wise.Currency.USD true true ("123") ("SW1")
    ("Bank A") ("Branch A") ("SW1") ("BIC1")

/-- The domain view of the non-self-owned sample recipient. -/
def otherSampleRecipient : Wise.Recipient :=
  Wise.Recipient.mk 8 1 ("Other Person") Wise.Currency.USD true false ("456") ("SW2")
    ("Bank B") ("Branch B") ("SW2") ("BIC2")

/-- The domain view of the sample personal profile. -/
def wiseSampleUserProfile : Wise.UserProfile :=
  Wise.UserProfile.mk 1 Wise.ProfileTypes.PERSONAL ("Kavindu") ("Athaudha") ("1990-01-01")

/-- The domain `Transfer` produced by `wiseSampleEnv` for the self-owned
recipient: unsuccessful, carrying the fund's error message. -/
def wiseSampleTransfer : Wise.Transfer :=
  Wise.Transfer.mk 1 Wise.Currency.USD Wise.Currency.EUR 100 90 selfSampleRecipient
    (Wise.ExchangeRate.mk 1 Wise.Currency.USD Wise.Currency.EUR) false (some ("fund failed"))
    (some ("E1"))

/-- C5: when the resolved recipient is not self-owned, `Transfer.execute`
raises `TransferringMoneyToNonSelfOwnedAccountsException` with an empty
event trace — before any quote call, and without any notification. -/
theorem transfer_non_self_owned_fails_before_quote (env : Wise.WiseEnv)
    (receiving_amount : Rat) (from_currency to_currency : Wise.Currency)
    (recipient_account_number reference : String) (profile_type : Wise.ProfileTypes)
    (r : Wise.Recipient)
    (hr : Wise.Recipient.get_by_account_number_and_profile_type env recipient_account_number
      profile_type = Except.ok (some r))
    (hown : r.is_self_owned = false) :
    Wise.Transfer.execute env receiving_amount from_currency to_currency
      recipient_account_number reference profile_type =
      (Except.error (PyError.kind PyErrorKind.transferringMoneyToNonSelfOwnedAccounts), []) := by
  unfold Wise.Transfer.execute
  rw [hr]
  simp [hown]

/-- Witness for C5: the non-self-owned recipient "456" of the sample
environment makes `Transfer.execute` fail with an empty trace. -/
theorem transfer_non_self_owned_fails_before_quote_witness :
    (Wise.Recipient.get_by_account_number_and_profile_type wiseSampleEnv ("456")
      Wise.ProfileTypes.PERSONAL = Except.ok (some otherSampleRecipient))
    ∧ (otherSampleRecipient.is_self_owned = false)
    ∧ Wise.Transfer.execute wiseSampleEnv 100 Wise.Currency.USD Wise.Currency.EUR ("456")
      ("rent") Wise.ProfileTypes.PERSONAL =
      (Except.error (PyError.kind PyErrorKind.transferringMoneyToNonSelfOwnedAccounts), []) :=
  ⟨by decide, by decide,
    transfer_non_self_owned_fails_before_quote wiseSampleEnv 100 Wise.Currency.USD
      Wise.Currency.EUR ("456") ("rent") Wise.ProfileTypes.PERSONAL otherSampleRecipient
      (by decide) (by decide)⟩

/-- Counterexample for C8: with an account number matching no recipient of
the resolved profile, `Transfer.execute` terminates before any quote,
transfer or fund call, but with an `AttributeError` (the lookup returns
`None` and `.is_self_owned` is dereferenced on it), which is not one of the
code's domain not-found errors. -/
theorem transfer_missing_recipient_counterexample :
    Wise.Transfer.execute wiseSampleEnv 100 Wise.Currency.USD Wise.Currency.USD ("999")
      ("rent") Wise.ProfileTypes.PERSONAL =
      (Except.error (PyError.kind PyErrorKind.attributeErrorNone), [])
    ∧ (PyError.kind PyErrorKind.attributeErrorNone).isNotFound = false := by
  decide

/-- C8 as amended: when the recipient account number matches no recipient of
the resolved profile, the operation terminates before any quote, transfer or
fund call (empty event trace), but with a `None`-dereference
`AttributeError` rather than a domain not-found error. -/
theorem transfer_missing_recipient_attribute_error (env : Wise.WiseEnv)
    (receiving_amount : Rat) (from_currency to_currency : Wise.Currency)
    (recipient_account_number reference : String) (profile_type : Wise.ProfileTypes)
    (hr : Wise.Recipient.get_by_account_number_and_profile_type env recipient_account_number
      profile_type = Except.ok none) :
    Wise.Transfer.execute env receiving_amount from_currency to_currency
      recipient_account_number reference profile_type =
      (Except.error (PyError.kind PyErrorKind.attributeErrorNone), [])
    ∧ (PyError.kind PyErrorKind.attributeErrorNone).isNotFound = false := by
  unfold Wise.Transfer.execute
  rw [hr]
  exact ⟨rfl, rfl⟩

/-- Witness for C8 as amended: account number "999" matches no recipient of
the sample environment. -/
theorem transfer_missing_recipient_attribute_error_witness :
    (Wise.Recipient.get_by_account_number_and_profile_type wiseSampleEnv ("999")
      Wise.ProfileTypes.PERSONAL = Except.ok none)
    ∧ (Wise.Transfer.execute wiseSampleEnv 50 Wise.Currency.USD Wise.Currency.USD ("999")
      ("bills") Wise.ProfileTypes.PERSONAL =
      (Except.error (PyError.kind PyErrorKind.attributeErrorNone), [])
    ∧ (PyError.kind PyErrorKind.attributeErrorNone).isNotFound = false) :=
  ⟨by decide,
    transfer_missing_recipient_attribute_error wiseSampleEnv 50 Wise.Currency.USD
      Wise.Currency.USD ("999") ("bills") Wise.ProfileTypes.PERSONAL (by decide)⟩

/-- C2: a same-currency transfer whose available balance is strictly below
the requested amount fails with `InsufficientFundsException` whose message
carries shortfall = requested amount − balance; the trace holds exactly one
failure notification (preceded by the log write, before the re-raise) and
no quote, transfer or fund call. -/
theorem transfer_insufficient_funds_same_currency (env : Wise.WiseEnv)
    (receiving_amount : Rat) (from_currency to_currency : Wise.Currency)
    (recipient_account_number reference : String) (profile_type : Wise.ProfileTypes)
    (r : Wise.Recipient) (ab : Wise.AccountBalance)
    (hr : Wise.Recipient.get_by_account_number_and_profile_type env recipient_account_number
      profile_type = Except.ok (some r))
    (hown : r.is_self_owned = true)
    (heq : from_currency = to_currency)
    (hab : Wise.AccountBalance.get_by_currency_and_profile_type env from_currency
      profile_type = Except.ok ab)
    (hlt : ab.balance < receiving_amount) :
    Wise.Transfer.execute env receiving_amount from_currency to_currency
      recipient_account_number reference profile_type =
      (Except.error (PyError.insufficientFunds (Wise.InsufficientFundsMsg.mk from_currency
        receiving_amount ab.balance (receiving_amount - ab.balance))),
       [Wise.Event.logInsufficientFunds (Wise.InsufficientFundsMsg.mk from_currency
          receiving_amount ab.balance (receiving_amount - ab.balance)),
        Wise.Event.notifyInsufficientFundsFailure (Wise.InsufficientFundsMsg.mk from_currency
          receiving_amount ab.balance (receiving_amount - ab.balance))])
    ∧ (Wise.Transfer.execute env receiving_amount from_currency to_currency
        recipient_account_number reference profile_type).2.countP
        Wise.Event.isFailureNotification = 1 := by
  have hpre : Wise.Transfer.same_currency_precheck env receiving_amount from_currency
      to_currency profile_type = Except.error (PyError.insufficientFunds
        (Wise.InsufficientFundsMsg.mk from_currency receiving_amount ab.balance
          (receiving_amount - ab.balance))) := by
    unfold Wise.Transfer.same_currency_precheck
    rw [if_pos heq, hab]
    simp [hlt]
  have htry : Wise.Transfer.executeTry env receiving_amount from_currency to_currency r
      reference profile_type = (Except.error (PyError.insufficientFunds
        (Wise.InsufficientFundsMsg.mk from_currency receiving_amount ab.balance
          (receiving_amount - ab.balance))), []) := by
    unfold Wise.Transfer.executeTry
    rw [hpre]
  have hmain : Wise.Transfer.execute env receiving_amount from_currency to_currency
      recipient_account_number reference profile_type =
      (Except.error (PyError.insufficientFunds (Wise.InsufficientFundsMsg.mk from_currency
        receiving_amount ab.balance (receiving_amount - ab.balance))),
       [Wise.Event.logInsufficientFunds (Wise.InsufficientFundsMsg.mk from_currency
          receiving_amount ab.balance (receiving_amount - ab.balance)),
        Wise.Event.notifyInsufficientFundsFailure (Wise.InsufficientFundsMsg.mk from_currency
          receiving_amount ab.balance (receiving_amount - ab.balance))]) := by
    unfold Wise.Transfer.execute
    rw [hr]
    simp [hown, htry]
  exact ⟨hmain, by rw [hmain]; rfl⟩

/-- Witness for C2: requesting 100 USD against a 50 USD balance in the
sample environment fails with shortfall 50 after exactly one failure
notification and no upstream mutating call. -/
theorem transfer_insufficient_funds_same_currency_witness :
    (Wise.Recipient.get_by_account_number_and_profile_type wiseSampleEnv ("123")
      Wise.ProfileTypes.PERSONAL = Except.ok (some selfSampleRecipient))
    ∧ (selfSampleRecipient.is_self_owned = true)
    ∧ (Wise.AccountBalance.get_by_currency_and_profile_type wiseSampleEnv Wise.Currency.USD
      Wise.ProfileTypes.PERSONAL =
      Except.ok (Wise.AccountBalance.mk Wise.Currency.USD 50 0))
    ∧ ((Wise.AccountBalance.mk Wise.Currency.USD 50 0).balance < (100 : Rat))
    ∧ (Wise.Transfer.execute wiseSampleEnv 100 Wise.Currency.USD Wise.Currency.USD ("123")
        ("rent") Wise.ProfileTypes.PERSONAL =
        (Except.error (PyError.insufficientFunds (Wise.InsufficientFundsMsg.mk
          Wise.Currency.USD 100 50 50)),
         [Wise.Event.logInsufficientFunds (Wise.InsufficientFundsMsg.mk Wise.Currency.USD
            100 50 50),
          Wise.Event.notifyInsufficientFundsFailure (Wise.InsufficientFundsMsg.mk
            Wise.Currency.USD 100 50 50)])
      ∧ (Wise.Transfer.execute wiseSampleEnv 100 Wise.Currency.USD Wise.Currency.USD ("123")
          ("rent") Wise.ProfileTypes.PERSONAL).2.countP Wise.Event.isFailureNotification = 1) :=
  ⟨by decide, by decide, by decide, by decide,
    by
      have h := (transfer_insufficient_funds_same_currency wiseSampleEnv 100 Wise.Currency.USD
        Wise.Currency.USD ("123") ("rent") Wise.ProfileTypes.PERSONAL selfSampleRecipient
        (Wise.AccountBalance.mk Wise.Currency.USD 50 0) (by decide) (by decide) (by decide)
        (by decide) (by decide))
      norm_num at h
      exact h⟩

/-- C1: when execution reaches the funding step (recipient resolved and
self-owned, same-currency pre-check passed, profile resolved) and the fund
reports a status other than COMPLETED, `Transfer.execute` raises a
`ClientErrorException` carrying the fund's error message, catches it in the
same call, logs it, sends exactly one failure notification, and returns
`None`: the error does not propagate to the caller. -/
theorem transfer_fund_failure_swallowed (env : Wise.WiseEnv) (receiving_amount : Rat)
    (from_currency to_currency : Wise.Currency)
    (recipient_account_number reference : String) (profile_type : Wise.ProfileTypes)
    (r : Wise.Recipient) (up : Wise.UserProfile) (q : Wise.WiseQuote)
    (wt : Wise.WiseTransfer) (wf : Wise.WiseFund) (t : Wise.Transfer)
    (hr : Wise.Recipient.get_by_account_number_and_profile_type env recipient_account_number
      profile_type = Except.ok (some r))
    (hown : r.is_self_owned = true)
    (hpre : Wise.Transfer.same_currency_precheck env receiving_amount from_currency
      to_currency profile_type = Except.ok ())
    (hup : Wise.UserProfile.get_by_profile_type env profile_type = Except.ok (some up))
    (hq : env.quote up.id from_currency.value to_currency.value receiving_amount
      r.account_id = q)
    (hwt : env.transfer r.account_id q.id reference = wt)
    (hwf : env.fund up.id wt.id = wf)
    (ht : Wise.Transfer.init up r wt wf = Except.ok t)
    (hstatus : wf.status ≠ ("COMPLETED")) :
    Wise.Transfer.execute env receiving_amount from_currency to_currency
      recipient_account_number reference profile_type =
      (Except.ok none,
       [Wise.Event.quoteCall, Wise.Event.transferCall, Wise.Event.fundCall,
        Wise.Event.logClientError wf.errorMessage,
        Wise.Event.notifyClientFailure wf.errorMessage]) := by
  have hflags := Wise.Transfer.init_ok_flags up r wt wf t ht
  have hsucc : t.is_successful = false := by
    rw [hflags.1]
    exact beq_eq_false_iff_ne.mpr hstatus
  have hmsg : t.error_message = wf.errorMessage := hflags.2
  have htry : Wise.Transfer.executeTry env receiving_amount from_currency to_currency r
      reference profile_type = (Except.error (PyError.clientError wf.errorMessage),
      [Wise.Event.quoteCall, Wise.Event.transferCall, Wise.Event.fundCall]) := by
    unfold Wise.Transfer.executeTry
    rw [hpre, hup]
    simp only [hq, hwt, hwf, ht, hsucc, hmsg, Bool.false_eq_true, if_false]
  unfold Wise.Transfer.execute
  rw [hr]
  simp [hown, htry]

/-- Witness for C1: in the sample environment the fund reports FAILED; the
concrete execution returns `None` with the quote, transfer and fund calls
followed by the log write and one failure notification, both carrying the
fund's error message. -/
theorem transfer_fund_failure_swallowed_witness :
    (Wise.Recipient.get_by_account_number_and_profile_type wiseSampleEnv ("123")
      Wise.ProfileTypes.PERSONAL = Except.ok (some selfSampleRecipient))
    ∧ (selfSampleRecipient.is_self_owned = true)
    ∧ (Wise.Transfer.same_currency_precheck wiseSampleEnv 100 Wise.Currency.USD
      Wise.Currency.EUR Wise.ProfileTypes.PERSONAL = Except.ok ())
    ∧ (Wise.UserProfile.get_by_profile_type wiseSampleEnv Wise.ProfileTypes.PERSONAL =
      Except.ok (some wiseSampleUserProfile))
    ∧ (wiseSampleEnv.quote wiseSampleUserProfile.id Wise.Currency.USD.value
      Wise.Currency.EUR.value 100 selfSampleRecipient.account_id = Wise.WiseQuote.mk 100)
    ∧ (wiseSampleEnv.transfer selfSampleRecipient.account_id (Wise.WiseQuote.mk 100).id
      ("rent") = Wise.WiseTransfer.mk 200 ("USD") ("EUR") 100 90 1)
    ∧ (wiseSampleEnv.fund wiseSampleUserProfile.id
      (Wise.WiseTransfer.mk 200 ("USD") ("EUR") 100 90 1).id =
      Wise.WiseFund.mk ("FAILED") (some ("fund failed")) (some ("E1")))
    ∧ (Wise.Transfer.init wiseSampleUserProfile selfSampleRecipient
      (Wise.WiseTransfer.mk 200 ("USD") ("EUR") 100 90 1)
      (Wise.WiseFund.mk ("FAILED") (some ("fund failed")) (some ("E1"))) =
      Except.ok wiseSampleTransfer)
    ∧ ((Wise.WiseFund.mk ("FAILED") (some ("fund failed")) (some ("E1"))).status ≠ ("COMPLETED"))
    ∧ Wise.Transfer.execute wiseSampleEnv 100 Wise.Currency.USD Wise.Currency.EUR ("123")
      ("rent") Wise.ProfileTypes.PERSONAL =
      (Except.ok none,
       [Wise.Event.quoteCall, Wise.Event.transferCall, Wise.Event.fundCall,
        Wise.Event.logClientError (some ("fund failed")),
        Wise.Event.notifyClientFailure (some ("fund failed"))]) :=
  ⟨by decide, by decide, by decide, by decide, by decide, by decide, by decide, by decide,
    by decide,
    by exact (transfer_fund_failure_swallowed wiseSampleEnv 100 Wise.Currency.USD
      Wise.Currency.EUR ("123") ("rent") Wise.ProfileTypes.PERSONAL selfSampleRecipient
      wiseSampleUserProfile (Wise.WiseQuote.mk 100)
      (Wise.WiseTransfer.mk 200 ("USD") ("EUR") 100 90 1)
      (Wise.WiseFund.mk ("FAILED") (some ("fund failed")) (some ("E1"))) wiseSampleTransfer
      (by decide) (by decide) (by decide) (by decide) (by decide) (by decide) (by decide)
      (by decide) (by decide))⟩

